import Mathlib

/-!
Verification of the emissions-calculation engine of the EmiMeter dashboard
(`src/streamlit_app.py`).  The engine is pure arithmetic over numeric records;
we embed it over `ℚ` (Python floats carry exact decimal literals here, and the
spec's properties are stated as exact arithmetic identities).

Embedded pieces:
  * `FACTORS` — the emission-factor table (kg per unit).
  * `ActivityData` — the activity-data record (the keys of the Python dict).
  * `Adjustments` — the adjustments dict: each key optional, matching
    `dict.get(key, default)`; the whole record optional, matching the
    `adjustments=None` default parameter.
  * `calculate_category_emissions` — the per-category calculator, an
    `if/elif` chain on the category string, falling through to `0.0`.
  * `get_full_emission_dataframe` — the report builder: one row per category
    in the fixed order, carrying the displayed input value and the emissions.
  * `total_co2` — `df['Emissions (tCO2e)'].sum()`.
-/

namespace EmiMeter

/-- The emission-factor table `FACTORS` (kg per unit of activity). -/
def FACTORS (k : String) : ℚ :=
  if k = "Cars" then 0.18
  else if k = "Trucks" then 0.90
  else if k = "Buses" then 1.10
  else if k = "Forklifts" then 4.0
  else if k = "Planes" then 9000.0
  else if k = "Lighting" then 0.42
  else if k = "Heating" then 0.20
  else if k = "Cooling" then 0.42
  else if k = "Computing" then 0.42
  else 0

/-- The activity-data record: the keys of the Python `activity_data` dict. -/
structure ActivityData where
  Cars_km : ℚ
  Trucks_km : ℚ
  Buses_km : ℚ
  Forklifts_hr : ℚ
  Planes_hr : ℚ
  Lighting_kWh : ℚ
  Heating_kWhth : ℚ
  Cooling_kWh : ℚ
  Computing_kWh : ℚ
  Subcontractors_tCO2e : List ℚ
  deriving DecidableEq

/-- The adjustments dict: each key may be absent (`dict.get` supplies the
default when it is). -/
structure Adjustments where
  EV_Share : Option ℚ
  KM_Reduction : Option ℚ
  Load_Factor : Option ℚ
  deriving DecidableEq

/-- The empty adjustments dict — what `adjustments = {}` denotes after the
`adjustments if adjustments is not None else {}` line. -/
def emptyAdjustments : Adjustments := ⟨none, none, none⟩

/-- The function `calculate_category_emissions(category, activity_data, adjustments=None)`:
the per-category calculator, an `if/elif` chain on the category string,
returning tons CO2e, with a final fall-through `return 0.0`. -/
def calculate_category_emissions (category : String) (activity_data : ActivityData)
    (adjustments0 : Option Adjustments) : ℚ :=
  let adjustments := adjustments0.getD emptyAdjustments
  let A := activity_data
  if category = "Cars" then
    let EV := adjustments.EV_Share.getD 0
    let KMRed := adjustments.KM_Reduction.getD 0
    let emissions_kg := (A.Cars_km * FACTORS "Cars") * (1 - 0.7 * EV / 100) * (1 - KMRed / 100)
    emissions_kg / 1000
  else if category = "Trucks" then
    (A.Trucks_km * FACTORS "Trucks") / 1000
  else if category = "Buses" then
    (A.Buses_km * FACTORS "Buses") / 1000
  else if category = "Forklifts" then
    (A.Forklifts_hr * FACTORS "Forklifts") / 1000
  else if category = "Cargo Planes" then
    let LoadFactor := adjustments.Load_Factor.getD 100
    let emissions_kg := (A.Planes_hr * FACTORS "Planes") * (LoadFactor / 100)
    emissions_kg / 1000
  else if category = "Office Lighting" then
    (A.Lighting_kWh * FACTORS "Lighting") / 1000
  else if category = "Heating" then
    (A.Heating_kWhth * FACTORS "Heating") / 1000
  else if category = "Cooling (A/C)" then
    (A.Cooling_kWh * FACTORS "Cooling") / 1000
  else if category = "Computing (IT)" then
    (A.Computing_kWh * FACTORS "Computing") / 1000
  else if category = "Subcontractors" then
    A.Subcontractors_tCO2e.sum
  else
    0.0

/-- The fixed category order iterated by `get_full_emission_dataframe`. -/
def categories : List String :=
  ["Cars", "Trucks", "Buses", "Forklifts", "Cargo Planes",
   "Office Lighting", "Heating", "Cooling (A/C)", "Computing (IT)", "Subcontractors"]

/-- The input value recorded for display in each report row (for
Subcontractors, the sum of the sequence; the initial placeholder is never
kept for any category in the fixed list). -/
def display_input_value (cat : String) (activity_data : ActivityData) : ℚ :=
  if cat = "Cars" then activity_data.Cars_km
  else if cat = "Trucks" then activity_data.Trucks_km
  else if cat = "Buses" then activity_data.Buses_km
  else if cat = "Forklifts" then activity_data.Forklifts_hr
  else if cat = "Cargo Planes" then activity_data.Planes_hr
  else if cat = "Office Lighting" then activity_data.Lighting_kWh
  else if cat = "Heating" then activity_data.Heating_kWhth
  else if cat = "Cooling (A/C)" then activity_data.Cooling_kWh
  else if cat = "Computing (IT)" then activity_data.Computing_kWh
  else if cat = "Subcontractors" then activity_data.Subcontractors_tCO2e.sum
  else 0

/-- One row of the report dataframe: category, displayed activity input,
emissions in tons CO2e. -/
structure ReportRow where
  Category : String
  ActivityValue : ℚ
  Emissions : ℚ
  deriving DecidableEq

/-- The report builder `get_full_emission_dataframe(activity_data, adjustments)`: one row per
category in the fixed order, each computed by `calculate_category_emissions`. -/
def get_full_emission_dataframe (activity_data : ActivityData)
    (adjustments : Adjustments) : List ReportRow :=
  categories.map (fun cat =>
    { Category := cat
      ActivityValue := display_input_value cat activity_data
      Emissions := calculate_category_emissions cat activity_data (some adjustments) })

/-- The report total, computed as the sum of the Emissions column, for both
the baseline and the optimized dataframe. -/
def total_co2 (activity_data : ActivityData) (adjustments : Adjustments) : ℚ :=
  ((get_full_emission_dataframe activity_data adjustments).map ReportRow.Emissions).sum

/-- The baseline adjustments dict built by the app:
`{'EV_Share': 0, 'KM_Reduction': 0, 'Load_Factor': 100}`. -/
def baseline_adjustments : Adjustments := ⟨some 0, some 0, some 100⟩

/-- The default activity data shipped with the app (`DEFAULT_ACTIVITY_DATA`). -/
def DEFAULT_ACTIVITY_DATA : ActivityData :=
  { Cars_km := 250000
    Trucks_km := 150000
    Buses_km := 80000
    Forklifts_hr := 2000
    Planes_hr := 400
    Lighting_kWh := 120000
    Heating_kWhth := 50000
    Cooling_kWh := 300000
    Computing_kWh := 90000
    Subcontractors_tCO2e := [120, 45, 20] }

end EmiMeter

namespace EmiMeter

/-- Claim C1: for the default activity record and the neutral baseline
adjustments, the per-category calculator returns exactly Cars=45.0,
Trucks=135.0, Buses=88.0, Forklifts=8.0, Cargo Planes=3600.0, Office
Lighting=50.4, Heating=10.0, Cooling=126.0, Computing=37.8,
Subcontractors=185.0 tons CO2e, and the report total is 4285.2 tons CO2e. -/
theorem C1_concrete_scenario :
    calculate_category_emissions "Cars" DEFAULT_ACTIVITY_DATA (some baseline_adjustments) = 45.0
  ∧ calculate_category_emissions "Trucks" DEFAULT_ACTIVITY_DATA (some baseline_adjustments) = 135.0
  ∧ calculate_category_emissions "Buses" DEFAULT_ACTIVITY_DATA (some baseline_adjustments) = 88.0
  ∧ calculate_category_emissions "Forklifts" DEFAULT_ACTIVITY_DATA (some baseline_adjustments) = 8.0
  ∧ calculate_category_emissions "Cargo Planes" DEFAULT_ACTIVITY_DATA (some baseline_adjustments) = 3600.0
  ∧ calculate_category_emissions "Office Lighting" DEFAULT_ACTIVITY_DATA (some baseline_adjustments) = 50.4
  ∧ calculate_category_emissions "Heating" DEFAULT_ACTIVITY_DATA (some baseline_adjustments) = 10.0
  ∧ calculate_category_emissions "Cooling (A/C)" DEFAULT_ACTIVITY_DATA (some baseline_adjustments) = 126.0
  ∧ calculate_category_emissions "Computing (IT)" DEFAULT_ACTIVITY_DATA (some baseline_adjustments) = 37.8
  ∧ calculate_category_emissions "Subcontractors" DEFAULT_ACTIVITY_DATA (some baseline_adjustments) = 185.0
  ∧ total_co2 DEFAULT_ACTIVITY_DATA baseline_adjustments = 4285.2 := by
  refine ⟨?_, ?_, ?_, ?_, ?_, ?_, ?_, ?_, ?_, ?_, ?_⟩ <;>
    (simp only [total_co2, get_full_emission_dataframe, categories, calculate_category_emissions,
      display_input_value, DEFAULT_ACTIVITY_DATA, baseline_adjustments, FACTORS, emptyAdjustments,
      List.map_cons, List.map_nil, List.sum_cons, List.sum_nil, Option.getD_some,
      String.reduceEq, reduceIte]; norm_num)

/-- Claim C2: for every activity record and every adjustments record with
EV share and KM reduction supplied, the Cars emissions in tons equal
`cars_km * 0.18 * (1 - 0.7 * ev_share/100) * (1 - km_reduction/100) / 1000`. -/
theorem C2_cars_formula (A : ActivityData) (EV KMRed : ℚ) (lf : Option ℚ) :
    calculate_category_emissions "Cars" A (some ⟨some EV, some KMRed, lf⟩)
      = A.Cars_km * 0.18 * (1 - 0.7 * EV / 100) * (1 - KMRed / 100) / 1000 := by
  simp [calculate_category_emissions, FACTORS]

/-- Claim C3: Cargo Planes emissions equal
`plane_hours * 9000.0 * (load_factor/100) / 1000`, with the load factor
defaulting to 100 when the adjustments record (or the field) is omitted;
with load factor 100 the result is the unadjusted formula, with load factor 0
it is zero, and it is linear in the load factor. -/
theorem C3_cargo_planes_load_factor (A : ActivityData) (adj : Adjustments) (t : ℚ) :
    calculate_category_emissions "Cargo Planes" A (some adj)
      = A.Planes_hr * 9000.0 * (adj.Load_Factor.getD 100 / 100) / 1000
  ∧ calculate_category_emissions "Cargo Planes" A none = A.Planes_hr * 9000.0 / 1000
  ∧ calculate_category_emissions "Cargo Planes" A (some {adj with Load_Factor := none})
      = calculate_category_emissions "Cargo Planes" A (some {adj with Load_Factor := some 100})
  ∧ calculate_category_emissions "Cargo Planes" A (some {adj with Load_Factor := some 100})
      = A.Planes_hr * 9000.0 / 1000
  ∧ calculate_category_emissions "Cargo Planes" A (some {adj with Load_Factor := some 0}) = 0
  ∧ calculate_category_emissions "Cargo Planes" A (some {adj with Load_Factor := some t})
      = (t / 100) * (A.Planes_hr * 9000.0 / 1000) := by
  refine ⟨?_, ?_, ?_, ?_, ?_, ?_⟩ <;>
    (simp [calculate_category_emissions, FACTORS, emptyAdjustments]; try ring)

/-- Claim C4 as stated is false: for a category outside the ten-entry
enumeration the calculator does not signal an error — it falls through to
`return 0.0`.  Concretely, "Bicycles" is not an enumerated category and the
calculator returns 0 for it. -/
theorem C4_counterexample :
    "Bicycles" ∉ categories
  ∧ calculate_category_emissions "Bicycles" DEFAULT_ACTIVITY_DATA (some baseline_adjustments) = 0 := by
  constructor
  · decide
  · simp [calculate_category_emissions]
    norm_num

/-- Claim C4 (amended): for every activity record, every adjustments value and
every category outside the closed ten-entry enumeration, the per-category
calculator silently returns zero (the final fall-through of the dispatch),
rather than signalling an error. -/
theorem C4_unknown_category_returns_zero (cat : String) (A : ActivityData)
    (adj : Option Adjustments) (h : cat ∉ categories) :
    calculate_category_emissions cat A adj = 0 := by
  simp [categories] at h
  obtain ⟨h1, h2, h3, h4, h5, h6, h7, h8, h9, h10⟩ := h
  simp [calculate_category_emissions, h1, h2, h3, h4, h5, h6, h7, h8, h9, h10]
  norm_num

/-- Witness for C4 (amended): "Scooters" is outside the enumeration and the
calculator returns zero for it. -/
theorem C4_unknown_category_returns_zero_witness :
    "Scooters" ∉ categories
  ∧ calculate_category_emissions "Scooters" DEFAULT_ACTIVITY_DATA none = 0 :=
  ⟨by decide, C4_unknown_category_returns_zero "Scooters" DEFAULT_ACTIVITY_DATA none (by decide)⟩

end EmiMeter

namespace EmiMeter

/-- Claim C5: increasing a single category's activity field (all other fields
and the adjustments held fixed, adjustment percentages in [0, 100]) never
decreases that category's computed emissions, for each of the ten categories
(for Subcontractors, increasing means a sequence with a larger sum). -/
theorem C5_activity_monotone (A : ActivityData) (adj : Adjustments) (x y : ℚ) (xs ys : List ℚ)
    (hEV0 : 0 ≤ adj.EV_Share.getD 0) (hEV1 : adj.EV_Share.getD 0 ≤ 100)
    (hKM0 : 0 ≤ adj.KM_Reduction.getD 0) (hKM1 : adj.KM_Reduction.getD 0 ≤ 100)
    (hLF0 : 0 ≤ adj.Load_Factor.getD 100) (hLF1 : adj.Load_Factor.getD 100 ≤ 100)
    (hxy : x ≤ y) (hsum : xs.sum ≤ ys.sum) :
    calculate_category_emissions "Cars" {A with Cars_km := x} (some adj)
      ≤ calculate_category_emissions "Cars" {A with Cars_km := y} (some adj)
  ∧ calculate_category_emissions "Trucks" {A with Trucks_km := x} (some adj)
      ≤ calculate_category_emissions "Trucks" {A with Trucks_km := y} (some adj)
  ∧ calculate_category_emissions "Buses" {A with Buses_km := x} (some adj)
      ≤ calculate_category_emissions "Buses" {A with Buses_km := y} (some adj)
  ∧ calculate_category_emissions "Forklifts" {A with Forklifts_hr := x} (some adj)
      ≤ calculate_category_emissions "Forklifts" {A with Forklifts_hr := y} (some adj)
  ∧ calculate_category_emissions "Cargo Planes" {A with Planes_hr := x} (some adj)
      ≤ calculate_category_emissions "Cargo Planes" {A with Planes_hr := y} (some adj)
  ∧ calculate_category_emissions "Office Lighting" {A with Lighting_kWh := x} (some adj)
      ≤ calculate_category_emissions "Office Lighting" {A with Lighting_kWh := y} (some adj)
  ∧ calculate_category_emissions "Heating" {A with Heating_kWhth := x} (some adj)
      ≤ calculate_category_emissions "Heating" {A with Heating_kWhth := y} (some adj)
  ∧ calculate_category_emissions "Cooling (A/C)" {A with Cooling_kWh := x} (some adj)
      ≤ calculate_category_emissions "Cooling (A/C)" {A with Cooling_kWh := y} (some adj)
  ∧ calculate_category_emissions "Computing (IT)" {A with Computing_kWh := x} (some adj)
      ≤ calculate_category_emissions "Computing (IT)" {A with Computing_kWh := y} (some adj)
  ∧ calculate_category_emissions "Subcontractors" {A with Subcontractors_tCO2e := xs} (some adj)
      ≤ calculate_category_emissions "Subcontractors" {A with Subcontractors_tCO2e := ys} (some adj) := by
  have hm1 : 0 ≤ 1 - 0.7 * adj.EV_Share.getD 0 / 100 := by nlinarith
  have hm2 : 0 ≤ 1 - adj.KM_Reduction.getD 0 / 100 := by linarith
  refine ⟨?_, ?_, ?_, ?_, ?_, ?_, ?_, ?_, ?_, ?_⟩ <;>
    simp [calculate_category_emissions, FACTORS]
  · nlinarith [mul_nonneg (mul_nonneg (sub_nonneg.mpr hxy) hm1) hm2]
  · linarith
  · linarith
  · linarith
  · nlinarith [mul_nonneg (sub_nonneg.mpr hxy) hLF0]
  · linarith
  · linarith
  · linarith
  · linarith
  · exact hsum

/-- Witness for C5: the monotonicity theorem applied at the default activity
data, the baseline adjustments, 1 ≤ 2 for the numeric field, and sequences
[] and [3] for Subcontractors. -/
theorem C5_activity_monotone_witness :
    (0 ≤ baseline_adjustments.EV_Share.getD 0 ∧ baseline_adjustments.EV_Share.getD 0 ≤ 100)
  ∧ (0 ≤ baseline_adjustments.KM_Reduction.getD 0 ∧ baseline_adjustments.KM_Reduction.getD 0 ≤ 100)
  ∧ (0 ≤ baseline_adjustments.Load_Factor.getD 100 ∧ baseline_adjustments.Load_Factor.getD 100 ≤ 100)
  ∧ (1 : ℚ) ≤ 2 ∧ ([] : List ℚ).sum ≤ ([3] : List ℚ).sum
  ∧ (calculate_category_emissions "Cars" {DEFAULT_ACTIVITY_DATA with Cars_km := 1} (some baseline_adjustments)
      ≤ calculate_category_emissions "Cars" {DEFAULT_ACTIVITY_DATA with Cars_km := 2} (some baseline_adjustments)
  ∧ calculate_category_emissions "Trucks" {DEFAULT_ACTIVITY_DATA with Trucks_km := 1} (some baseline_adjustments)
      ≤ calculate_category_emissions "Trucks" {DEFAULT_ACTIVITY_DATA with Trucks_km := 2} (some baseline_adjustments)
  ∧ calculate_category_emissions "Buses" {DEFAULT_ACTIVITY_DATA with Buses_km := 1} (some baseline_adjustments)
      ≤ calculate_category_emissions "Buses" {DEFAULT_ACTIVITY_DATA with Buses_km := 2} (some baseline_adjustments)
  ∧ calculate_category_emissions "Forklifts" {DEFAULT_ACTIVITY_DATA with Forklifts_hr := 1} (some baseline_adjustments)
      ≤ calculate_category_emissions "Forklifts" {DEFAULT_ACTIVITY_DATA with Forklifts_hr := 2} (some baseline_adjustments)
  ∧ calculate_category_emissions "Cargo Planes" {DEFAULT_ACTIVITY_DATA with Planes_hr := 1} (some baseline_adjustments)
      ≤ calculate_category_emissions "Cargo Planes" {DEFAULT_ACTIVITY_DATA with Planes_hr := 2} (some baseline_adjustments)
  ∧ calculate_category_emissions "Office Lighting" {DEFAULT_ACTIVITY_DATA with Lighting_kWh := 1} (some baseline_adjustments)
      ≤ calculate_category_emissions "Office Lighting" {DEFAULT_ACTIVITY_DATA with Lighting_kWh := 2} (some baseline_adjustments)
  ∧ calculate_category_emissions "Heating" {DEFAULT_ACTIVITY_DATA with Heating_kWhth := 1} (some baseline_adjustments)
      ≤ calculate_category_emissions "Heating" {DEFAULT_ACTIVITY_DATA with Heating_kWhth := 2} (some baseline_adjustments)
  ∧ calculate_category_emissions "Cooling (A/C)" {DEFAULT_ACTIVITY_DATA with Cooling_kWh := 1} (some baseline_adjustments)
      ≤ calculate_category_emissions "Cooling (A/C)" {DEFAULT_ACTIVITY_DATA with Cooling_kWh := 2} (some baseline_adjustments)
  ∧ calculate_category_emissions "Computing (IT)" {DEFAULT_ACTIVITY_DATA with Computing_kWh := 1} (some baseline_adjustments)
      ≤ calculate_category_emissions "Computing (IT)" {DEFAULT_ACTIVITY_DATA with Computing_kWh := 2} (some baseline_adjustments)
  ∧ calculate_category_emissions "Subcontractors" {DEFAULT_ACTIVITY_DATA with Subcontractors_tCO2e := []} (some baseline_adjustments)
      ≤ calculate_category_emissions "Subcontractors" {DEFAULT_ACTIVITY_DATA with Subcontractors_tCO2e := [3]} (some baseline_adjustments)) :=
  ⟨⟨by simp [baseline_adjustments], by simp [baseline_adjustments]⟩,
   ⟨by simp [baseline_adjustments], by simp [baseline_adjustments]⟩,
   ⟨by simp [baseline_adjustments], by simp [baseline_adjustments]⟩,
   by simp, by simp,
   C5_activity_monotone DEFAULT_ACTIVITY_DATA baseline_adjustments 1 2 [] [3]
     (by simp [baseline_adjustments]) (by simp [baseline_adjustments])
     (by simp [baseline_adjustments]) (by simp [baseline_adjustments])
     (by simp [baseline_adjustments]) (by simp [baseline_adjustments])
     (by simp) (by simp)⟩

end EmiMeter

namespace EmiMeter

/-- Claim C6: for every activity record and adjustments record the report
total equals the sum of the emissions of the report's rows (there are ten of
them, one per category), equivalently the sum of the ten per-category
calculator results. -/
theorem C6_total_is_sum_of_rows (A : ActivityData) (adj : Adjustments) :
    total_co2 A adj = ((get_full_emission_dataframe A adj).map ReportRow.Emissions).sum
  ∧ (get_full_emission_dataframe A adj).length = 10
  ∧ total_co2 A adj
      = calculate_category_emissions "Cars" A (some adj)
      + calculate_category_emissions "Trucks" A (some adj)
      + calculate_category_emissions "Buses" A (some adj)
      + calculate_category_emissions "Forklifts" A (some adj)
      + calculate_category_emissions "Cargo Planes" A (some adj)
      + calculate_category_emissions "Office Lighting" A (some adj)
      + calculate_category_emissions "Heating" A (some adj)
      + calculate_category_emissions "Cooling (A/C)" A (some adj)
      + calculate_category_emissions "Computing (IT)" A (some adj)
      + calculate_category_emissions "Subcontractors" A (some adj) := by
  refine ⟨rfl, rfl, ?_⟩
  simp [total_co2, get_full_emission_dataframe, categories]
  ring

/-- Claim C7: for every activity record, with EV share 100 and KM reduction 0
the Cars emissions are exactly 30% of the unadjusted value
`cars_km * 0.18 / 1000`, and with KM reduction 100 and EV share 0 they are
zero. -/
theorem C7_cars_adjustment_bounds (A : ActivityData) (lf : Option ℚ) :
    calculate_category_emissions "Cars" A (some ⟨some 100, some 0, lf⟩)
      = 0.3 * (A.Cars_km * 0.18 / 1000)
  ∧ calculate_category_emissions "Cars" A (some ⟨some 0, some 100, lf⟩) = 0 := by
  constructor <;> (simp [calculate_category_emissions, FACTORS]; try ring)

/-- Claim C8: for every category string and activity record, calling the
calculator with the adjustments omitted (`None`) gives the same value as the
explicit neutral adjustments (EV 0, KM reduction 0, load factor 100); a
missing individual field behaves as its neutral default; and a baseline
report and a report built with the all-fields-missing adjustments have
identical totals. -/
theorem C8_neutral_defaults (cat : String) (A : ActivityData) (adj : Adjustments) :
    calculate_category_emissions cat A none
      = calculate_category_emissions cat A (some ⟨some 0, some 0, some 100⟩)
  ∧ calculate_category_emissions cat A (some adj)
      = calculate_category_emissions cat A
          (some ⟨some (adj.EV_Share.getD 0), some (adj.KM_Reduction.getD 0),
                 some (adj.Load_Factor.getD 100)⟩)
  ∧ total_co2 A ⟨none, none, none⟩ = total_co2 A baseline_adjustments := by
  refine ⟨?_, ?_, ?_⟩
  · simp only [calculate_category_emissions, emptyAdjustments, Option.getD_some,
      Option.getD_none]
  · simp only [calculate_category_emissions, emptyAdjustments, Option.getD_some,
      Option.getD_none]
  · simp [total_co2, get_full_emission_dataframe, categories, calculate_category_emissions,
      emptyAdjustments, baseline_adjustments]

/-- Claim C9: for every adjustments value, each category yields zero
emissions at zero activity input: each factor category returns 0 when its
distance/hours/kWh field is 0, and Subcontractors returns 0 for the empty
sequence and for any sequence summing to zero. -/
theorem C9_zero_activity_zero_emissions (A : ActivityData) (adj : Option Adjustments)
    (xs : List ℚ) (hsum : xs.sum = 0) :
    calculate_category_emissions "Cars" {A with Cars_km := 0} adj = 0
  ∧ calculate_category_emissions "Trucks" {A with Trucks_km := 0} adj = 0
  ∧ calculate_category_emissions "Buses" {A with Buses_km := 0} adj = 0
  ∧ calculate_category_emissions "Forklifts" {A with Forklifts_hr := 0} adj = 0
  ∧ calculate_category_emissions "Cargo Planes" {A with Planes_hr := 0} adj = 0
  ∧ calculate_category_emissions "Office Lighting" {A with Lighting_kWh := 0} adj = 0
  ∧ calculate_category_emissions "Heating" {A with Heating_kWhth := 0} adj = 0
  ∧ calculate_category_emissions "Cooling (A/C)" {A with Cooling_kWh := 0} adj = 0
  ∧ calculate_category_emissions "Computing (IT)" {A with Computing_kWh := 0} adj = 0
  ∧ calculate_category_emissions "Subcontractors" {A with Subcontractors_tCO2e := []} adj = 0
  ∧ calculate_category_emissions "Subcontractors" {A with Subcontractors_tCO2e := xs} adj = 0 := by
  refine ⟨?_, ?_, ?_, ?_, ?_, ?_, ?_, ?_, ?_, ?_, ?_⟩ <;>
    simp [calculate_category_emissions, hsum]

/-- Witness for C9: the zero-activity theorem applied at the default activity
data, no adjustments, and the all-zero sequence [0, 0, 0]. -/
theorem C9_zero_activity_zero_emissions_witness :
    ([0, 0, 0] : List ℚ).sum = 0
  ∧ (calculate_category_emissions "Cars" {DEFAULT_ACTIVITY_DATA with Cars_km := 0} none = 0
  ∧ calculate_category_emissions "Trucks" {DEFAULT_ACTIVITY_DATA with Trucks_km := 0} none = 0
  ∧ calculate_category_emissions "Buses" {DEFAULT_ACTIVITY_DATA with Buses_km := 0} none = 0
  ∧ calculate_category_emissions "Forklifts" {DEFAULT_ACTIVITY_DATA with Forklifts_hr := 0} none = 0
  ∧ calculate_category_emissions "Cargo Planes" {DEFAULT_ACTIVITY_DATA with Planes_hr := 0} none = 0
  ∧ calculate_category_emissions "Office Lighting" {DEFAULT_ACTIVITY_DATA with Lighting_kWh := 0} none = 0
  ∧ calculate_category_emissions "Heating" {DEFAULT_ACTIVITY_DATA with Heating_kWhth := 0} none = 0
  ∧ calculate_category_emissions "Cooling (A/C)" {DEFAULT_ACTIVITY_DATA with Cooling_kWh := 0} none = 0
  ∧ calculate_category_emissions "Computing (IT)" {DEFAULT_ACTIVITY_DATA with Computing_kWh := 0} none = 0
  ∧ calculate_category_emissions "Subcontractors" {DEFAULT_ACTIVITY_DATA with Subcontractors_tCO2e := []} none = 0
  ∧ calculate_category_emissions "Subcontractors" {DEFAULT_ACTIVITY_DATA with Subcontractors_tCO2e := [0, 0, 0]} none = 0) :=
  ⟨by simp,
   C9_zero_activity_zero_emissions DEFAULT_ACTIVITY_DATA none [0, 0, 0] (by simp)⟩

/-- Claim C10: for every activity record and every pair of adjustments
records, the eight categories other than Cars and Cargo Planes (Trucks,
Buses, Forklifts, Office Lighting, Heating, Cooling, Computing,
Subcontractors) compute identical emissions — only Cars and Cargo Planes
read the adjustments. -/
theorem C10_only_cars_and_planes_read_adjustments (A : ActivityData)
    (adjA adjB : Adjustments) :
    calculate_category_emissions "Trucks" A (some adjA)
      = calculate_category_emissions "Trucks" A (some adjB)
  ∧ calculate_category_emissions "Buses" A (some adjA)
      = calculate_category_emissions "Buses" A (some adjB)
  ∧ calculate_category_emissions "Forklifts" A (some adjA)
      = calculate_category_emissions "Forklifts" A (some adjB)
  ∧ calculate_category_emissions "Office Lighting" A (some adjA)
      = calculate_category_emissions "Office Lighting" A (some adjB)
  ∧ calculate_category_emissions "Heating" A (some adjA)
      = calculate_category_emissions "Heating" A (some adjB)
  ∧ calculate_category_emissions "Cooling (A/C)" A (some adjA)
      = calculate_category_emissions "Cooling (A/C)" A (some adjB)
  ∧ calculate_category_emissions "Computing (IT)" A (some adjA)
      = calculate_category_emissions "Computing (IT)" A (some adjB)
  ∧ calculate_category_emissions "Subcontractors" A (some adjA)
      = calculate_category_emissions "Subcontractors" A (some adjB) := by
  refine ⟨?_, ?_, ?_, ?_, ?_, ?_, ?_, ?_⟩ <;> simp [calculate_category_emissions]

end EmiMeter
